import Mathlib

/-
Verification of the brightness-control service (src/Ax-Shell/services/brightness.py)
against its natural-language specification.

The Python class `Brightness` is shallowly embedded as a pure state machine:

* mutable instance fields become the record `BState`;
* GLib timeout sources are abstracted to Boolean "armed" flags (a GLib source
  id is a positive integer used only for cancellation, so only armedness is
  observable in the model); re-arming after `source_remove` keeps the flag set;
* emitting the `screen` signal and spawning an external command are recorded
  as explicit effect lists (`emits`, `cmds`) returned by each operation;
* filesystem contents, file mtimes, wall-clock time and subprocess stdout are
  inputs to the operations (`Option` encodes a read/parse/subprocess failure,
  i.e. a Python exception absorbed by the surrounding `try`/`except`);
* Python `int((raw / max) * 100)` (float division then truncation toward zero)
  is modelled as exact rational truncation `Int.tdiv (raw * 100) max`; the two
  agree on all values appearing in this development, and float rounding noise
  is outside the embedding;
* `time.time()` is modelled as an integer number of seconds passed in by the
  caller.
-/

namespace Brightness

/-- The two concrete backends the service can select (`None` is modelled by
`Option Backend`). -/
inductive Backend
  | brightnessctl
  | ddcutil
deriving DecidableEq, Repr

/-- External commands the service can spawn.  The exact command-line text
(device name, ddcutil tuning flags) is abstracted; the backend, the bus
number and the raw value passed are kept. -/
inductive Cmd
  | brightnessctlSet (raw : Int)
  | ddcutilSetvcp (bus : Nat) (raw : Int)
  | ddcutilGetvcp (bus : Nat)
deriving DecidableEq, Repr

/-- The mutable instance state of the `Brightness` service.

`timer_id` / `poll_timer_id` record whether the debounce timeout source
(`self._timer_id`) resp. the poll timeout source (`self._poll_timer_id`) is
armed.  `init_cache_timer` records whether the one-shot 100ms ddcutil
cache-initialization timeout (whose GLib id the constructor does NOT store)
is still armed.  `ddcutil_bus` is `none` when the attribute `self.ddcutil_bus`
was never assigned (accessing it then raises AttributeError in Python). -/
structure BState where
  backend : Option Backend
  max_screen : Int
  pending_raw : Option Int
  timer_id : Bool
  poll_timer_id : Bool
  init_cache_timer : Bool
  last_percent : Int
  last_raw : Int
  last_update_time : Int
  last_file_mtime : Int
  ddcutil_bus : Option Nat
deriving DecidableEq, Repr

/-- Result of a state-mutating operation: new state, percentages emitted on
the `screen` signal, external commands issued. -/
structure StepResult where
  st : BState
  emits : List Int
  cmds : List Cmd
deriving DecidableEq, Repr

/-- Result of the `screen_brightness` getter: returned value, new state, and
external commands issued. -/
structure ReadResult where
  value : Int
  st : BState
  cmds : List Cmd
deriving DecidableEq, Repr

/-- `MIN_CHANGE_THRESHOLD = 2` (percent). -/
def MIN_CHANGE_THRESHOLD : Int := 2

/-- `CACHE_INTERVAL = 3` (seconds). -/
def CACHE_INTERVAL : Int := 3

/-- `max(0, min(value, max_screen))` — the clamp on the write path. -/
def clamp_raw (value max_raw : Int) : Int := max 0 (min value max_raw)

/-- `int((raw / max_screen) * 100) if max_screen > 0 else 0` — the percent
conversion used by the setter (new percent), `_apply_brightness`,
`_check_brightness_file` and `_setup_polling`. -/
def to_percent (raw max_raw : Int) : Int :=
  if 0 < max_raw then Int.tdiv (raw * 100) max_raw else 0

/-- Python regex whitespace class `\s`. -/
def isWs (c : Char) : Bool :=
  c = ' ' ∨ c = '\t' ∨ c = '\n' ∨ c = '\r' ∨ c = '\x0b' ∨ c = '\x0c'

/-- Drop a maximal run of `\s` characters (the regex piece `\s*`). -/
def dropWs : List Char → List Char
  | [] => []
  | c :: cs => if isWs c then dropWs cs else c :: cs

/-- Split off a maximal run of digits (the regex piece `\d+`, greedy). -/
def takeDigits : List Char → List Char × List Char
  | [] => ([], [])
  | c :: cs =>
    if c.isDigit then
      let p := takeDigits cs
      (c :: p.1, p.2)
    else ([], c :: cs)

/-- Decimal value of a digit run. -/
def digitsToNat (ds : List Char) : Nat :=
  ds.foldl (fun acc c => acc * 10 + (c.toNat - 48)) 0

/-- Match a literal character sequence at the head of the input. -/
def stripLit : List Char → List Char → Option (List Char)
  | [], cs => some cs
  | _ :: _, [] => none
  | l :: ls, c :: cs => if c = l then stripLit ls cs else none

/-- Match `current value\s*=\s*(\d+)\s*,\s*max value\s*=\s*(\d+)` anchored at
the start of the input.  Since each `\d+` is followed by `\s*` and then a
non-digit literal, greedy maximal-munch digit scanning is equivalent to the
backtracking regex semantics. -/
def matchVcpAt (cs : List Char) : Option (Nat × Nat) :=
  match stripLit ("current value".toList) cs with
  | none => none
  | some cs1 =>
    match stripLit ['='] (dropWs cs1) with
    | none => none
    | some cs2 =>
      match takeDigits (dropWs cs2) with
      | ([], _) => none
      | (d1, cs3) =>
        match stripLit [','] (dropWs cs3) with
        | none => none
        | some cs4 =>
          match stripLit ("max value".toList) (dropWs cs4) with
          | none => none
          | some cs5 =>
            match stripLit ['='] (dropWs cs5) with
            | none => none
            | some cs6 =>
              match takeDigits (dropWs cs6) with
              | ([], _) => none
              | (d2, _) => some (digitsToNat d1, digitsToNat d2)

/-- Leftmost search of the pattern in the input (Python `re.search`). -/
def searchVcp : List Char → Option (Nat × Nat)
  | [] => none
  | c :: cs =>
    match matchVcpAt (c :: cs) with
    | some r => some r
    | none => searchVcp cs

/-- Parse `current value = X, max value = Y` out of ddcutil `getvcp` stdout. -/
def parseVcp (s : String) : Option (Nat × Nat) := searchVcp s.toList

/-- The setter's `current_percent`:
`int((last_raw / max_screen) * 100) if last_raw != -1 and max_screen > 0 else -1`. -/
def set_current_percent (s : BState) : Int :=
  if s.last_raw ≠ -1 ∧ 0 < s.max_screen then
    Int.tdiv (s.last_raw * 100) s.max_screen
  else -1

/-- The setter's `new_percent`, computed from the already-clamped value. -/
def set_new_percent (s : BState) (value : Int) : Int :=
  to_percent (clamp_raw value s.max_screen) s.max_screen

/-- The setter's early-return guard:
`abs(new_percent - current_percent) < MIN_CHANGE_THRESHOLD and last_raw != -1`. -/
def set_dropped (s : BState) (value : Int) : Prop :=
  |set_new_percent s value - set_current_percent s| < MIN_CHANGE_THRESHOLD ∧
    s.last_raw ≠ -1

instance (s : BState) (value : Int) : Decidable (set_dropped s value) := by
  unfold set_dropped
  infer_instance

/-- `screen_brightness` setter: clamp, drop insignificant requests, otherwise
record the pending raw value and (re-)arm the 50ms debounce timer (cancelling
any previously armed one — armedness stays `true`). -/
def screen_brightness_set (s : BState) (value : Int) : BState :=
  if set_dropped s value then s
  else { s with pending_raw := some (clamp_raw value s.max_screen), timer_id := true }

/-- `_apply_brightness`, parameterised by the current wall-clock time.

With no pending value it only clears the timer handle.  Otherwise it takes
and clears the pending value, clears the timer handle, optimistically updates
`_last_raw`, computes the percent, and per backend emits the `screen` signal
and spawns the write command.  For the ddcutil backend with no recorded bus,
building the command string raises AttributeError after the emit; the outer
`except` absorbs it, so the emit happens and no command is issued.  With no
backend, neither branch runs: no emit, no command. -/
def apply_brightness (s : BState) (now : Int) : StepResult :=
  match s.pending_raw with
  | none => ⟨{ s with timer_id := false }, [], []⟩
  | some raw =>
    let s1 : BState := { s with pending_raw := none, timer_id := false, last_raw := raw }
    let percent := to_percent raw s1.max_screen
    match s1.backend with
    | some Backend.brightnessctl => ⟨s1, [percent], [Cmd.brightnessctlSet raw]⟩
    | some Backend.ddcutil =>
      let s2 : BState := { s1 with last_update_time := now }
      match s2.ddcutil_bus with
      | some bus => ⟨s2, [percent], [Cmd.ddcutilSetvcp bus raw]⟩
      | none => ⟨s2, [percent], []⟩
    | none => ⟨s1, [], []⟩

/-- `_check_brightness_file` poll callback, parameterised by whether the sysfs
file exists, its current mtime, and its parsed integer content (`none` when
reading/parsing raises; the exception is absorbed and polling continues).
Note the cached mtime is updated before the file is read, and the cached raw
value is updated as soon as it differs, while the cached percent and the
signal emission additionally require a significant percent change. -/
def check_brightness_file (s : BState) (file_exists : Bool) (mtime : Int)
    (content : Option Int) : StepResult :=
  if file_exists then
    if s.last_file_mtime < mtime then
      let s1 : BState := { s with last_file_mtime := mtime }
      match content with
      | none => ⟨s1, [], []⟩
      | some raw =>
        if raw ≠ s1.last_raw then
          let s2 : BState := { s1 with last_raw := raw }
          let percent := to_percent raw s2.max_screen
          if MIN_CHANGE_THRESHOLD ≤ |percent - s.last_percent| then
            ⟨{ s2 with last_percent := percent }, [percent], []⟩
          else ⟨s2, [], []⟩
        else ⟨s1, [], []⟩
    else ⟨s, [], []⟩
  else ⟨s, [], []⟩

/-- `screen_brightness` getter, parameterised by the wall clock, the sysfs
brightness file content (`none` = unreadable) and the ddcutil `getvcp` stdout
(`none` = nonzero exit, timeout or other exception during the subprocess
call).  For ddcutil with no recorded bus, building the argument list raises
AttributeError before the subprocess starts; the `except` absorbs it and the
cached-or-sentinel fallback is returned with no command issued. -/
def screen_brightness_get (s : BState) (now : Int) (fileRaw : Option Int)
    (queryOut : Option String) : ReadResult :=
  match s.backend with
  | none => ⟨-1, s, []⟩
  | some Backend.brightnessctl =>
    if s.last_raw ≠ -1 then ⟨s.last_raw, s, []⟩
    else
      match fileRaw with
      | some raw => ⟨raw, { s with last_raw := raw }, []⟩
      | none => ⟨-1, s, []⟩
  | some Backend.ddcutil =>
    if now - s.last_update_time < CACHE_INTERVAL ∧ s.last_raw ≠ -1 then
      ⟨s.last_raw, s, []⟩
    else
      match s.ddcutil_bus with
      | none => ⟨if s.last_raw ≠ -1 then s.last_raw else -1, s, []⟩
      | some bus =>
        match queryOut with
        | none => ⟨if s.last_raw ≠ -1 then s.last_raw else -1, s, [Cmd.ddcutilGetvcp bus]⟩
        | some out =>
          match parseVcp out with
          | some p =>
            ⟨(p.1 : Int),
             { s with last_raw := (p.1 : Int), last_update_time := now },
             [Cmd.ddcutilGetvcp bus]⟩
          | none => ⟨if s.last_raw ≠ -1 then s.last_raw else -1, s, [Cmd.ddcutilGetvcp bus]⟩

/-- `_update_brightness_cache`: reads `screen_brightness` for its side effect
when the backend is ddcutil; returns `False` so the one-shot source is
removed. -/
def update_brightness_cache (s : BState) (now : Int) (fileRaw : Option Int)
    (queryOut : Option String) : StepResult :=
  if s.backend = some Backend.ddcutil then
    let r := screen_brightness_get s now fileRaw queryOut
    ⟨r.st, [], r.cmds⟩
  else ⟨s, [], []⟩

/-- `cleanup`: removes the debounce timeout source and the poll timeout source
(if armed) and clears their handles.  The constructor's one-shot ddcutil
cache-initialization timeout has no stored handle and is not touched. -/
def cleanup (s : BState) : BState :=
  { s with timer_id := false, poll_timer_id := false }

/-- `_detect_backend`, parameterised by the environment probes: whether
`brightnessctl` is on PATH, whether `/sys/class/backlight` lists a device,
whether `ddcutil` is on PATH, and the bus number parsed from `ddcutil detect`
(`none` models the -1 failure result).  Returns the selected backend together
with the recorded `ddcutil_bus` attribute (only the auto-detected ddcutil
path assigns it; a forced backend records no bus). -/
def detect_backend (forced : Option Backend) (bctlAvailable hasDevice ddcAvailable : Bool)
    (busDetected : Option Nat) : Option Backend × Option Nat :=
  match forced with
  | some b => (some b, none)
  | none =>
    if bctlAvailable ∧ hasDevice then (some Backend.brightnessctl, none)
    else if ddcAvailable then
      match busDetected with
      | some bus => (some Backend.ddcutil, some bus)
      | none => (none, none)
    else (none, none)

/-- `_read_max_brightness`: for ddcutil, parses the max value from `getvcp`
output (accessing the missing `ddcutil_bus` attribute raises and is absorbed,
yielding `None`); for brightnessctl, the parsed sysfs `max_brightness`
content; with no backend, falls off the function (`None`). -/
def read_max_brightness (backend : Option Backend) (bus : Option Nat)
    (queryOut : Option String) (sysfsMax : Option Int) : Option Int :=
  match backend with
  | none => none
  | some Backend.ddcutil =>
    match bus with
    | none => none
    | some _ =>
      match queryOut with
      | none => none
      | some out => (parseVcp out).map (fun p => (p.2 : Int))
  | some Backend.brightnessctl => sysfsMax

/-- Python `x or 100` applied to the optional max-brightness reading: `None`
and `0` are falsy and default to 100. -/
def py_or_100 (x : Option Int) : Int :=
  match x with
  | none => 100
  | some v => if v = 0 then 100 else v

/-- `__init__`: detect the backend, read the max raw value (defaulting to
100), then either arm the one-shot ddcutil cache timer or run
`_setup_polling` (cache the current sysfs value and mtime and arm the 500ms
poll timer; any exception aborts the setup with polling unarmed). -/
def initState (forced : Option Backend) (bctlAvailable hasDevice ddcAvailable : Bool)
    (busDetected : Option Nat) (maxQueryOut : Option String) (sysfsMax : Option Int)
    (pollFileExists : Bool) (pollContent : Option Int) (pollMtime : Int) : BState :=
  let det := detect_backend forced bctlAvailable hasDevice ddcAvailable busDetected
  let maxv := py_or_100 (read_max_brightness det.1 det.2 maxQueryOut sysfsMax)
  let s : BState :=
    { backend := det.1, max_screen := maxv, pending_raw := none, timer_id := false,
      poll_timer_id := false, init_cache_timer := false, last_percent := -1,
      last_raw := -1, last_update_time := 0, last_file_mtime := 0, ddcutil_bus := det.2 }
  match det.1 with
  | some Backend.ddcutil => { s with init_cache_timer := true }
  | some Backend.brightnessctl =>
    if pollFileExists then
      match pollContent with
      | some raw =>
        { s with last_raw := raw, last_percent := to_percent raw maxv,
                 last_file_mtime := pollMtime, poll_timer_id := true }
      | none => s
    else s
  | none => s

/-- Observable events of the service: a set request, elapse of the debounce
timer, elapse of the poll timer, elapse of the one-shot ddcutil cache timer,
a getter read, and `cleanup`.  Environment data (time, file contents,
subprocess stdout) travels with the event. -/
inductive Event
  | set (v : Int)
  | debounceFire (now : Int)
  | pollFire (file_exists : Bool) (mtime : Int) (content : Option Int)
  | initCacheFire (now : Int) (fileRaw : Option Int) (queryOut : Option String)
  | readBrightness (now : Int) (fileRaw : Option Int) (queryOut : Option String)
  | doCleanup

/-- One event step.  A timer event only runs its callback when the
corresponding source is armed; the debounce and cache callbacks return
`False`, so their sources are removed on firing. -/
def step (s : BState) : Event → StepResult
  | Event.set v => ⟨screen_brightness_set s v, [], []⟩
  | Event.debounceFire now =>
    if s.timer_id then apply_brightness s now else ⟨s, [], []⟩
  | Event.pollFire fe m c =>
    if s.poll_timer_id then check_brightness_file s fe m c else ⟨s, [], []⟩
  | Event.initCacheFire now f q =>
    if s.init_cache_timer then
      update_brightness_cache { s with init_cache_timer := false } now f q
    else ⟨s, [], []⟩
  | Event.readBrightness now f q =>
    let r := screen_brightness_get s now f q
    ⟨r.st, [], r.cmds⟩
  | Event.doCleanup => ⟨cleanup s, [], []⟩

/-- Run a sequence of events, concatenating the effects. -/
def runEvents : BState → List Event → StepResult
  | s, [] => ⟨s, [], []⟩
  | s, e :: es =>
    let r := step s e
    let r2 := runEvents r.st es
    ⟨r2.st, r.emits ++ r2.emits, r.cmds ++ r2.cmds⟩


/- Concrete states and event lists used by the claim theorems below. -/

/-- An auto-detected ddcutil state as produced by the constructor (bus 5,
max 100, one-shot cache timer armed). -/
def exC4init : BState :=
  initState none false false true (some 5) (some "current value = 40, max value = 100")
    none false none 0

/-- Ceiling 200, cached raw 100 (percent 50), poll timer armed. -/
def exC5 : BState :=
  ⟨some Backend.brightnessctl, 200, none, false, true, false, 50, 100, 0, 1, none⟩

/-- Ceiling 100, cached raw 40 and percent 40, poll timer armed. -/
def exC7 : BState :=
  ⟨some Backend.brightnessctl, 100, none, false, true, false, 40, 40, 0, 0, none⟩

/-- Ceiling 200, cached raw 104 (percent 52), idle writer. -/
def exC1 : BState :=
  ⟨some Backend.brightnessctl, 200, none, false, false, false, 52, 104, 0, 0, none⟩

/-- Ceiling 200, no cached value yet, idle writer. -/
def exC1w : BState :=
  ⟨some Backend.brightnessctl, 200, none, false, false, false, -1, -1, 0, 0, none⟩
/-- Ceiling 100, cached raw 50 (percent 50). -/
def exC2 : BState :=
  ⟨some Backend.brightnessctl, 100, none, false, true, false, 50, 50, 0, 0, none⟩
/-- The state constructed when backend detection finds nothing usable. -/
def exC3 : BState := initState none false false false none none none false none 0
/-- A sample event sequence: a write, its timer, a read, a cleanup. -/
def evsC3 : List Event :=
  [Event.set 120, Event.debounceFire 0, Event.readBrightness 5 (some 40) none, Event.doCleanup]
/-- Ceiling 80, cached raw 40, cached percent 50, poll timer armed. -/
def exC5w : BState :=
  ⟨some Backend.brightnessctl, 80, none, false, true, false, 50, 40, 0, 0, none⟩
/-- A ddcutil getvcp stdout sample. -/
def ddcOut : String := "current value = 40, max value = 100"
/-- A ddcutil state with empty cache, bus 3, ceiling 100. -/
def exC6 : BState :=
  ⟨some Backend.ddcutil, 100, none, false, false, false, -1, -1, 0, 0, some 3⟩
/-- The first (cache-miss) read on exC6 at time 100. -/
def exC6read : ReadResult := screen_brightness_get exC6 100 none (some ddcOut)
/-- Ceiling 100, a clamped pending value 55, debounce timer armed. -/
def exC7w : BState :=
  ⟨some Backend.brightnessctl, 100, some 55, true, false, false, -1, -1, 0, 0, none⟩
/-- The state constructed with a forced ddcutil backend (detection skipped). -/
def exC9 : BState := initState (some Backend.ddcutil) false false false none none none false none 0
/-- A backend-less state with ceiling 100 and no cached value. -/
def exC10 : BState := ⟨none, 100, none, false, false, false, -1, -1, 0, 0, none⟩

/-- Helper: the percent conversion of a raw value within [0, m] lies in
[0, 100]. -/
theorem to_percent_range (raw m : Int) (h0 : 0 ≤ raw) (h1 : raw ≤ m) :
    0 ≤ to_percent raw m ∧ to_percent raw m ≤ 100 := by
  unfold to_percent
  by_cases hm : 0 < m
  · rw [if_pos hm]
    obtain ⟨a, rfl⟩ := Int.eq_ofNat_of_zero_le h0
    obtain ⟨b, rfl⟩ := Int.eq_ofNat_of_zero_le (le_of_lt hm)
    rw [show ((a : Int) * 100) = ((a * 100 : Nat) : Int) by push_cast; ring]
    rw [show ((a * 100 : Nat) : Int).tdiv (b : Int) = ((a * 100 / b : Nat) : Int) from rfl]
    have hab : a ≤ b := by exact_mod_cast h1
    have hb : 0 < b := by exact_mod_cast hm
    have hle : a * 100 / b ≤ 100 := by
      calc a * 100 / b ≤ b * 100 / b := Nat.div_le_div_right (Nat.mul_le_mul_right 100 hab)
      _ = 100 := by rw [Nat.mul_comm, Nat.mul_div_cancel _ hb]
    constructor
    · exact Int.ofNat_nonneg _
    · exact_mod_cast hle
  · rw [if_neg hm]
    exact ⟨le_refl 0, by norm_num⟩

/-- C2 (main): with a valid cached raw value and a positive ceiling, a set
request is dropped exactly when the percent delta is below the threshold. -/
theorem set_drop_iff (s : BState) (v : Int) (hmax : 0 < s.max_screen) :
    (s.last_raw ≠ -1 →
      (set_dropped s v ↔
        |to_percent (clamp_raw v s.max_screen) s.max_screen
          - to_percent s.last_raw s.max_screen| < 2))
    ∧ (s.last_raw = -1 → ¬ set_dropped s v)
    ∧ (set_dropped s v → screen_brightness_set s v = s)
    ∧ (¬ set_dropped s v →
        screen_brightness_set s v =
          { s with pending_raw := some (clamp_raw v s.max_screen), timer_id := true }) := by
  refine ⟨?_, ?_, ?_, ?_⟩
  · intro h
    unfold set_dropped set_new_percent set_current_percent MIN_CHANGE_THRESHOLD
    rw [if_pos ⟨h, hmax⟩]
    rw [show to_percent s.last_raw s.max_screen = Int.tdiv (s.last_raw * 100) s.max_screen from
      if_pos hmax]
    exact and_iff_left h
  · intro h hd
    exact hd.2 h
  · intro hd
    unfold screen_brightness_set
    exact if_pos hd
  · intro hd
    unfold screen_brightness_set
    exact if_neg hd

/-- C6 (main): a ddcutil read with a valid cached raw value fetched less than
CACHE_INTERVAL seconds ago returns the cache, changes nothing, and invokes no
subprocess. -/
theorem ddcutil_cache_hit (s : BState) (now : Int) (f : Option Int) (q : Option String)
    (hb : s.backend = some Backend.ddcutil)
    (hfresh : now - s.last_update_time < CACHE_INTERVAL)
    (hraw : s.last_raw ≠ -1) :
    screen_brightness_get s now f q = ⟨s.last_raw, s, []⟩ := by
  unfold screen_brightness_get
  rw [hb]
  exact if_pos ⟨hfresh, hraw⟩

/-- C9 (main): a forced ddcutil backend records no bus address; the max-value
query absorbs the missing-attribute error and defaults the ceiling to 100,
and every read returns the cached raw value or the sentinel -1 with no
subprocess invocation. -/
theorem forced_ddcutil_safe (bctl hasDev ddc : Bool) (busDet : Option Nat)
    (maxQ : Option String) (sysfsMax : Option Int) (pe : Bool) (pc : Option Int) (pm : Int) :
    (initState (some Backend.ddcutil) bctl hasDev ddc busDet maxQ sysfsMax pe pc pm).backend
        = some Backend.ddcutil
    ∧ (initState (some Backend.ddcutil) bctl hasDev ddc busDet maxQ sysfsMax pe pc pm).ddcutil_bus
        = none
    ∧ (initState (some Backend.ddcutil) bctl hasDev ddc busDet maxQ sysfsMax pe pc pm).max_screen
        = 100
    ∧ (initState (some Backend.ddcutil) bctl hasDev ddc busDet maxQ sysfsMax pe pc pm).last_raw
        = -1
    ∧ (∀ (s : BState) (now : Int) (f : Option Int) (q : Option String),
        s.backend = some Backend.ddcutil → s.ddcutil_bus = none →
        screen_brightness_get s now f q
          = ⟨if s.last_raw ≠ -1 then s.last_raw else -1, s, []⟩) := by
  refine ⟨rfl, rfl, rfl, rfl, ?_⟩
  intro s now f q hb hbus
  unfold screen_brightness_get
  rw [hb]
  by_cases hc : now - s.last_update_time < CACHE_INTERVAL ∧ s.last_raw ≠ -1
  · rw [if_pos hc]
    simp [hc.2]
  · rw [if_neg hc, hbus]

/-- C4 (amended): cleanup clears the debounce and poll timer handles, is
idempotent, and afterwards neither the debounce nor the poll timer event
runs any callback or produces any effect. -/
theorem cleanup_cancels_idempotent (s : BState) :
    cleanup (cleanup s) = cleanup s
    ∧ (cleanup s).timer_id = false
    ∧ (cleanup s).poll_timer_id = false
    ∧ (∀ t, step (cleanup s) (Event.debounceFire t) = ⟨cleanup s, [], []⟩)
    ∧ (∀ fe m c, step (cleanup s) (Event.pollFire fe m c) = ⟨cleanup s, [], []⟩) := by
  refine ⟨rfl, rfl, rfl, ?_, ?_⟩
  · intro t
    simp [step, cleanup]
  · intro fe m c
    simp [step, cleanup]

/-- C4 (counterexample): on an auto-detected ddcutil backend, the one-shot
cache-initialization timer armed by the constructor is not cancelled by
cleanup; when it later fires it still invokes a ddcutil subprocess. -/
theorem cleanup_init_timer_counterexample :
    exC4init.init_cache_timer = true
    ∧ (step (cleanup exC4init)
        (Event.initCacheFire 10 none (some "current value = 40, max value = 100"))).cmds
        = [Cmd.ddcutilGetvcp 5] := by
  constructor
  · rfl
  · rfl

/-- C5 (amended): on a detected mtime increase with a readable file, the
cached raw value is updated whenever the newly read raw value differs from
the cache; the cached percent is updated and a notification emitted exactly
when additionally the percent change reaches the threshold. -/
theorem poll_update_emit_rule (s : BState) (m raw : Int)
    (hm : s.last_file_mtime < m) :
    (raw = s.last_raw →
      check_brightness_file s true m (some raw)
        = ⟨{ s with last_file_mtime := m }, [], []⟩)
    ∧ (raw ≠ s.last_raw →
        MIN_CHANGE_THRESHOLD ≤ |to_percent raw s.max_screen - s.last_percent| →
      check_brightness_file s true m (some raw)
        = ⟨{ s with last_file_mtime := m, last_raw := raw,
                    last_percent := to_percent raw s.max_screen },
           [to_percent raw s.max_screen], []⟩)
    ∧ (raw ≠ s.last_raw →
        |to_percent raw s.max_screen - s.last_percent| < MIN_CHANGE_THRESHOLD →
      check_brightness_file s true m (some raw)
        = ⟨{ s with last_file_mtime := m, last_raw := raw }, [], []⟩) := by
  refine ⟨?_, ?_, ?_⟩
  · intro h
    simp [check_brightness_file, hm, h]
  · intro h h2
    simp [check_brightness_file, hm, h, h2]
  · intro h h2
    simp [check_brightness_file, hm, h, not_le.mpr h2]

/-- C5 (counterexample): poll sees raw 100 change to 102 with ceiling 200;
the percent delta is 1 (below threshold), no notification fires, and yet the
cached raw value IS updated to 102 — refuting the claimed iff for the cache
update. -/
theorem poll_raw_cache_counterexample :
    (check_brightness_file exC5 true 2 (some 102)).st.last_raw = 102
    ∧ exC5.last_raw = 100
    ∧ (check_brightness_file exC5 true 2 (some 102)).emits = []
    ∧ |to_percent 102 exC5.max_screen - exC5.last_percent| < MIN_CHANGE_THRESHOLD := by
  refine ⟨rfl, rfl, rfl, by decide⟩

/-- C7 (amended): self-applied writes always emit a percent within 0..100
(the pending value is produced clamped by the setter); watcher emissions are
within 0..100 whenever the raw value read from the file lies within
[0, max_screen]; a dropped set request leaves the state entirely unchanged
(and the setter itself never emits), and an insignificant poll change emits
nothing. -/
theorem emit_range_invariant (s : BState) :
    (∀ r t p, s.pending_raw = some r → 0 ≤ r → r ≤ s.max_screen →
      p ∈ (apply_brightness s t).emits → 0 ≤ p ∧ p ≤ 100)
    ∧ (∀ v, ¬ set_dropped s v →
        (screen_brightness_set s v).pending_raw = some (clamp_raw v s.max_screen)
        ∧ 0 ≤ clamp_raw v s.max_screen
        ∧ (0 ≤ s.max_screen → clamp_raw v s.max_screen ≤ s.max_screen))
    ∧ (∀ v, set_dropped s v → screen_brightness_set s v = s)
    ∧ (∀ fe m raw p, 0 ≤ raw → raw ≤ s.max_screen →
        p ∈ (check_brightness_file s fe m (some raw)).emits → 0 ≤ p ∧ p ≤ 100)
    ∧ (∀ fe m raw,
        |to_percent raw s.max_screen - s.last_percent| < MIN_CHANGE_THRESHOLD →
        (check_brightness_file s fe m (some raw)).emits = []) := by
  refine ⟨?_, ?_, ?_, ?_, ?_⟩
  · intro r t p hpend h0 h1 hp
    have hb := to_percent_range r s.max_screen h0 h1
    unfold apply_brightness at hp
    rw [hpend] at hp
    rcases hback : s.backend with _ | b
    · rw [hback] at hp
      simp at hp
    · cases b
      · rw [hback] at hp
        simp at hp
        subst hp
        exact hb
      · rw [hback] at hp
        rcases hbus : s.ddcutil_bus with _ | bus
        · rw [hbus] at hp
          simp at hp
          subst hp
          exact hb
        · rw [hbus] at hp
          simp at hp
          subst hp
          exact hb
  · intro v hd
    refine ⟨?_, ?_, ?_⟩
    · unfold screen_brightness_set
      rw [if_neg hd]
    · exact le_max_left 0 _
    · intro hm
      unfold clamp_raw
      omega
  · intro v hd
    unfold screen_brightness_set
    exact if_pos hd
  · intro fe m raw p h0 h1 hp
    have hb := to_percent_range raw s.max_screen h0 h1
    rcases fe
    · simp [check_brightness_file] at hp
    · by_cases hm : s.last_file_mtime < m
      · by_cases hr : raw = s.last_raw
        · simp [check_brightness_file, hm, hr] at hp
        · by_cases hsig : MIN_CHANGE_THRESHOLD ≤ |to_percent raw s.max_screen - s.last_percent|
          · simp [check_brightness_file, hm, hr, hsig] at hp
            subst hp
            exact hb
          · simp [check_brightness_file, hm, hr, hsig] at hp
      · simp [check_brightness_file, hm] at hp
  · intro fe m raw hsig
    rcases fe
    · simp [check_brightness_file]
    · by_cases hm : s.last_file_mtime < m
      · by_cases hr : raw = s.last_raw
        · simp [check_brightness_file, hm, hr]
        · simp [check_brightness_file, hm, hr, not_le.mpr hsig]
      · simp [check_brightness_file, hm]

/-- C7 (counterexample): the watcher path does not clamp the raw value read
from the file; with ceiling 100 and a file reporting raw 200, a notification
is emitted carrying percent 200, outside the 0..100 range. -/
theorem emit_range_counterexample :
    (check_brightness_file exC7 true 1 (some 200)).emits = [200]
    ∧ ¬ (200 : Int) ≤ 100 := by
  exact ⟨rfl, by decide⟩

/-- C1 (amended): two set requests in one debounce window, both passing the
significance test, leave a single pending value — the clamped second request
— and a single armed timer; firing the debounce timer twice yields exactly
one applied write of that last accepted value (one emission, one command),
after which no pending value or armed timer remains. -/
theorem debounce_last_accepted_wins (s : BState) (v1 v2 t1 t2 : Int)
    (hb : s.backend = some Backend.brightnessctl)
    (h1 : ¬ set_dropped s v1)
    (h2 : ¬ set_dropped (screen_brightness_set s v1) v2) :
    (screen_brightness_set (screen_brightness_set s v1) v2).pending_raw
        = some (clamp_raw v2 s.max_screen)
    ∧ (screen_brightness_set (screen_brightness_set s v1) v2).timer_id = true
    ∧ runEvents s [Event.set v1, Event.set v2, Event.debounceFire t1, Event.debounceFire t2]
        = ⟨{ s with pending_raw := none, timer_id := false,
                    last_raw := clamp_raw v2 s.max_screen },
           [to_percent (clamp_raw v2 s.max_screen) s.max_screen],
           [Cmd.brightnessctlSet (clamp_raw v2 s.max_screen)]⟩ := by
  have e1 : screen_brightness_set s v1
      = { s with pending_raw := some (clamp_raw v1 s.max_screen), timer_id := true } := by
    unfold screen_brightness_set
    exact if_neg h1
  rw [e1] at h2
  have e2 : screen_brightness_set
        { s with pending_raw := some (clamp_raw v1 s.max_screen), timer_id := true } v2
      = { s with pending_raw := some (clamp_raw v2 s.max_screen), timer_id := true } := by
    unfold screen_brightness_set
    rw [if_neg h2]
  refine ⟨?_, ?_, ?_⟩
  · rw [e1, e2]
  · rw [e1, e2]
  · simp only [runEvents, step]
    rw [e1, e2]
    simp [apply_brightness, hb]

/-- C1 (counterexample): with ceiling 200 and cached raw 104 (percent 52),
requesting raw 100 (percent 50, significant) then raw 102 (percent 51,
insignificant) inside the debounce window performs exactly one write, but it
applies 100 — the second request did not overwrite the pending value, so the
applied value is not the last requested (clamped) value 102. -/
theorem set_coalesce_counterexample :
    (screen_brightness_set (screen_brightness_set exC1 100) 102).pending_raw = some 100
    ∧ (runEvents exC1 [Event.set 100, Event.set 102, Event.debounceFire 0]).st.last_raw = 100
    ∧ (runEvents exC1 [Event.set 100, Event.set 102, Event.debounceFire 0]).cmds
        = [Cmd.brightnessctlSet 100]
    ∧ clamp_raw 102 exC1.max_screen = 102
    ∧ (100 : Int) ≠ 102 := by
  refine ⟨rfl, rfl, rfl, rfl, by decide⟩

/-- Helper: with no backend and no armed poll timer, a single step has no
effects and preserves both facts. -/
theorem step_disabled (s : BState) (e : Event)
    (hb : s.backend = none) (hp : s.poll_timer_id = false) :
    (step s e).emits = [] ∧ (step s e).cmds = []
    ∧ (step s e).st.backend = none ∧ (step s e).st.poll_timer_id = false := by
  cases e with
  | set v =>
    by_cases hd : set_dropped s v
    · simp [step, screen_brightness_set, hd, hb, hp]
    · simp [step, screen_brightness_set, hd, hb, hp]
  | debounceFire now =>
    by_cases ht : s.timer_id
    · rcases hpend : s.pending_raw with _ | raw
      · simp [step, ht, apply_brightness, hpend, hb, hp]
      · simp [step, ht, apply_brightness, hpend, hb, hp]
    · simp [step, ht, hb, hp]
  | pollFire fe m c =>
    simp [step, hp, hb]
  | initCacheFire now f q =>
    by_cases hi : s.init_cache_timer
    · simp [step, hi, update_brightness_cache, hb, hp]
    · simp [step, hi, hb, hp]
  | readBrightness now f q =>
    simp [step, screen_brightness_get, hb, hp]
  | doCleanup =>
    simp [step, cleanup, hb, hp]

/-- C3 (main): with no backend selected (and hence no poll timer armed), any
sequence of events emits no notification and issues no external command, and
every read of the getter returns the sentinel -1. -/
theorem disabled_no_effects (s : BState) (evs : List Event)
    (hb : s.backend = none) (hp : s.poll_timer_id = false) :
    (runEvents s evs).emits = [] ∧ (runEvents s evs).cmds = []
    ∧ (runEvents s evs).st.backend = none
    ∧ (∀ now f q, (screen_brightness_get (runEvents s evs).st now f q).value = -1) := by
  induction evs generalizing s with
  | nil =>
    refine ⟨rfl, rfl, hb, ?_⟩
    intro now f q
    simp [runEvents, screen_brightness_get, hb]
  | cons e es ih =>
    obtain ⟨h1, h2, h3, h4⟩ := step_disabled s e hb hp
    obtain ⟨g1, g2, g3, g4⟩ := ih (step s e).st h3 h4
    refine ⟨?_, ?_, ?_, ?_⟩
    · simp [runEvents, h1, g1]
    · simp [runEvents, h2, g2]
    · simp [runEvents, g3]
    · intro now f q
      simp only [runEvents]
      exact g4 now f q

/-- C10 (main): with no backend, an accepted set request still records the
clamped pending value and arms the debounce timer; the apply callback then
overwrites the internal cached raw value with that clamped value while
emitting nothing and issuing nothing, the public getter still returns -1,
and a later request within the threshold of that value is dropped with the
state unchanged. -/
theorem disabled_set_frame (s : BState) (v v2 t1 : Int)
    (hb : s.backend = none)
    (hmax : 0 < s.max_screen)
    (h1 : ¬ set_dropped s v)
    (h2 : |to_percent (clamp_raw v2 s.max_screen) s.max_screen
            - to_percent (clamp_raw v s.max_screen) s.max_screen| < 2) :
    (screen_brightness_set s v).pending_raw = some (clamp_raw v s.max_screen)
    ∧ (screen_brightness_set s v).timer_id = true
    ∧ (apply_brightness (screen_brightness_set s v) t1).st.last_raw
        = clamp_raw v s.max_screen
    ∧ (apply_brightness (screen_brightness_set s v) t1).emits = []
    ∧ (apply_brightness (screen_brightness_set s v) t1).cmds = []
    ∧ (∀ now f q,
        (screen_brightness_get (apply_brightness (screen_brightness_set s v) t1).st now f q).value
          = -1)
    ∧ screen_brightness_set (apply_brightness (screen_brightness_set s v) t1).st v2
        = (apply_brightness (screen_brightness_set s v) t1).st := by
  have e1 : screen_brightness_set s v
      = { s with pending_raw := some (clamp_raw v s.max_screen), timer_id := true } := by
    unfold screen_brightness_set
    exact if_neg h1
  have e2 : apply_brightness (screen_brightness_set s v) t1
      = ⟨{ s with pending_raw := none, timer_id := false,
                  last_raw := clamp_raw v s.max_screen }, [], []⟩ := by
    rw [e1]
    unfold apply_brightness
    simp [hb]
  have hc0 : 0 ≤ clamp_raw v s.max_screen := le_max_left 0 _
  have hne : clamp_raw v s.max_screen ≠ -1 := by omega
  have hdrop : set_dropped
      { s with pending_raw := none, timer_id := false, last_raw := clamp_raw v s.max_screen } v2 := by
    have hcur : set_current_percent
        { s with pending_raw := none, timer_id := false, last_raw := clamp_raw v s.max_screen }
        = Int.tdiv (clamp_raw v s.max_screen * 100) s.max_screen := by
      unfold set_current_percent
      rw [if_pos (And.intro hne hmax)]
    have hnew : set_new_percent
        { s with pending_raw := none, timer_id := false, last_raw := clamp_raw v s.max_screen } v2
        = Int.tdiv (clamp_raw v2 s.max_screen * 100) s.max_screen := by
      unfold set_new_percent to_percent
      rw [if_pos hmax]
    unfold to_percent at h2
    rw [if_pos hmax, if_pos hmax] at h2
    exact ⟨by rw [hcur, hnew]; exact h2, hne⟩
  refine ⟨by rw [e1], by rw [e1], by rw [e2], by rw [e2], by rw [e2], ?_, ?_⟩
  · intro now f q
    rw [e2]
    simp [screen_brightness_get, hb]
  · rw [e2]
    unfold screen_brightness_set
    exact if_pos hdrop

/-- C8 (main): the write-path clamp max(0, min(v, m)) lands in [0, m] for any
positive ceiling m and is idempotent. -/
theorem clamp_raw_spec (v m : Int) (hm : 0 < m) :
    0 ≤ clamp_raw v m ∧ clamp_raw v m ≤ m ∧
      clamp_raw (clamp_raw v m) m = clamp_raw v m := by
  unfold clamp_raw
  omega

/-- C8 (witness): the clamp theorem instantiated at v = 250, m = 100. -/
theorem clamp_raw_spec_witness :
    0 < (100 : Int)
    ∧ (0 ≤ clamp_raw 250 100 ∧ clamp_raw 250 100 ≤ 100
        ∧ clamp_raw (clamp_raw 250 100) 100 = clamp_raw 250 100) :=
  ⟨by decide, clamp_raw_spec 250 100 (by decide)⟩

/-- C2 (witness): at ceiling 100 and current percent 50, a request for raw 51
(percent 51) is dropped by the significance test. -/
theorem set_drop_iff_witness :
    0 < exC2.max_screen
    ∧ ((exC2.last_raw ≠ -1 →
        (set_dropped exC2 51 ↔
          |to_percent (clamp_raw 51 exC2.max_screen) exC2.max_screen
            - to_percent exC2.last_raw exC2.max_screen| < 2))
      ∧ (exC2.last_raw = -1 → ¬ set_dropped exC2 51)
      ∧ (set_dropped exC2 51 → screen_brightness_set exC2 51 = exC2)
      ∧ (¬ set_dropped exC2 51 →
          screen_brightness_set exC2 51 =
            { exC2 with pending_raw := some (clamp_raw 51 exC2.max_screen), timer_id := true })) :=
  ⟨by decide, set_drop_iff exC2 51 (by decide)⟩

/-- C6 (witness): parsing current value 40 / max 100 yields a read of 40
(percent 40), and a second read 2 seconds later is a pure cache hit. -/
theorem ddcutil_cache_hit_witness :
    exC6read.value = 40
    ∧ to_percent exC6read.value exC6.max_screen = 40
    ∧ exC6read.st.backend = some Backend.ddcutil
    ∧ 102 - exC6read.st.last_update_time < CACHE_INTERVAL
    ∧ exC6read.st.last_raw ≠ -1
    ∧ screen_brightness_get exC6read.st 102 none none
        = ⟨exC6read.st.last_raw, exC6read.st, []⟩ :=
  ⟨by decide, by decide, by decide, by decide, by decide,
   ddcutil_cache_hit exC6read.st 102 none none (by decide) (by decide) (by decide)⟩

/-- C9 (witness): the forced-ddcutil construction instantiated concretely;
a read on the fresh state returns the sentinel with no command. -/
theorem forced_ddcutil_safe_witness :
    exC9.backend = some Backend.ddcutil
    ∧ exC9.ddcutil_bus = none
    ∧ exC9.max_screen = 100
    ∧ screen_brightness_get exC9 5 none (some ddcOut)
        = ⟨if exC9.last_raw ≠ -1 then exC9.last_raw else -1, exC9, []⟩
    ∧ (if exC9.last_raw ≠ -1 then exC9.last_raw else -1) = -1 :=
  ⟨(forced_ddcutil_safe false false false none none none false none 0).1,
   (forced_ddcutil_safe false false false none none none false none 0).2.1,
   (forced_ddcutil_safe false false false none none none false none 0).2.2.1,
   (forced_ddcutil_safe false false false none none none false none 0).2.2.2.2
     exC9 5 none (some ddcOut) (by decide) (by decide),
   by decide⟩

/-- C5 (witness): poll sees raw 40 become 60 at ceiling 80; percent 75 is
significant against cached percent 50, so the cache updates and 75 is
emitted. -/
theorem poll_update_emit_rule_witness :
    exC5w.last_file_mtime < 1
    ∧ (60 : Int) ≠ exC5w.last_raw
    ∧ MIN_CHANGE_THRESHOLD ≤ |to_percent 60 exC5w.max_screen - exC5w.last_percent|
    ∧ check_brightness_file exC5w true 1 (some 60)
        = ⟨{ exC5w with last_file_mtime := 1, last_raw := 60,
                        last_percent := to_percent 60 exC5w.max_screen },
           [to_percent 60 exC5w.max_screen], []⟩
    ∧ to_percent 60 exC5w.max_screen = 75 :=
  ⟨by decide, by decide, by decide,
   (poll_update_emit_rule exC5w 1 60 (by decide)).2.1 (by decide) (by decide),
   by decide⟩

/-- C7 (witness): applying the clamped pending value 55 at ceiling 100 emits
55, which lies within 0..100; an insignificant poll change emits nothing. -/
theorem emit_range_invariant_witness :
    exC7w.pending_raw = some 55
    ∧ (55 : Int) ∈ (apply_brightness exC7w 0).emits
    ∧ (0 ≤ (55 : Int) ∧ (55 : Int) ≤ 100)
    ∧ (check_brightness_file exC7w true 5 (some 0)).emits = [] :=
  ⟨rfl, by decide,
   (emit_range_invariant exC7w).1 55 0 55 rfl (by decide) (by decide) (by decide),
   (emit_range_invariant exC7w).2.2.2.2 true 5 0 (by decide)⟩

/-- C1 (witness): the spec example — ceiling 200, requests 100 then 102 from
a fresh cache — applies exactly one write of 102 (percent 51). -/
theorem debounce_last_accepted_wins_witness :
    ¬ set_dropped exC1w 100
    ∧ ¬ set_dropped (screen_brightness_set exC1w 100) 102
    ∧ (screen_brightness_set (screen_brightness_set exC1w 100) 102).pending_raw
        = some (clamp_raw 102 exC1w.max_screen)
    ∧ runEvents exC1w [Event.set 100, Event.set 102, Event.debounceFire 0, Event.debounceFire 1]
        = ⟨{ exC1w with pending_raw := none, timer_id := false,
                        last_raw := clamp_raw 102 exC1w.max_screen },
           [to_percent (clamp_raw 102 exC1w.max_screen) exC1w.max_screen],
           [Cmd.brightnessctlSet (clamp_raw 102 exC1w.max_screen)]⟩ :=
  ⟨by decide, by decide,
   (debounce_last_accepted_wins exC1w 100 102 0 1 rfl (by decide) (by decide)).1,
   (debounce_last_accepted_wins exC1w 100 102 0 1 rfl (by decide) (by decide)).2.2⟩

/-- C3 (witness): the no-backend construction run through a sample event
sequence emits nothing, spawns nothing, and still reads -1. -/
theorem disabled_no_effects_witness :
    (runEvents exC3 evsC3).emits = []
    ∧ (runEvents exC3 evsC3).cmds = []
    ∧ (screen_brightness_get (runEvents exC3 evsC3).st 7 (some 40) none).value = -1 :=
  ⟨(disabled_no_effects exC3 evsC3 rfl rfl).1,
   (disabled_no_effects exC3 evsC3 rfl rfl).2.1,
   (disabled_no_effects exC3 evsC3 rfl rfl).2.2.2 7 (some 40) none⟩

/-- C10 (witness): with no backend, setting raw 50 at ceiling 100 records and
applies pending 50 silently; a follow-up request of 51 is dropped. -/
theorem disabled_set_frame_witness :
    ¬ set_dropped exC10 50
    ∧ |to_percent (clamp_raw 51 exC10.max_screen) exC10.max_screen
        - to_percent (clamp_raw 50 exC10.max_screen) exC10.max_screen| < 2
    ∧ (screen_brightness_set exC10 50).pending_raw = some (clamp_raw 50 exC10.max_screen)
    ∧ (apply_brightness (screen_brightness_set exC10 50) 0).st.last_raw
        = clamp_raw 50 exC10.max_screen
    ∧ (apply_brightness (screen_brightness_set exC10 50) 0).emits = []
    ∧ (screen_brightness_get (apply_brightness (screen_brightness_set exC10 50) 0).st
        3 (some 77) none).value = -1
    ∧ screen_brightness_set (apply_brightness (screen_brightness_set exC10 50) 0).st 51
        = (apply_brightness (screen_brightness_set exC10 50) 0).st :=
  ⟨by decide, by decide,
   (disabled_set_frame exC10 50 51 0 rfl (by decide) (by decide) (by decide)).1,
   (disabled_set_frame exC10 50 51 0 rfl (by decide) (by decide) (by decide)).2.2.1,
   (disabled_set_frame exC10 50 51 0 rfl (by decide) (by decide) (by decide)).2.2.2.1,
   (disabled_set_frame exC10 50 51 0 rfl (by decide) (by decide) (by decide)).2.2.2.2.2.1
     3 (some 77) none,
   (disabled_set_frame exC10 50 51 0 rfl (by decide) (by decide) (by decide)).2.2.2.2.2.2⟩

end Brightness
